import Mathlib

/-!
Verification of the retrieval-augmented chat backend (src/backend/main.py).

The endpoint `chat_endpoint` is embedded as a total Lean function over three
oracles standing for the upstream services it consults:
* a retrieval outcome (the vector store / embedding stage, `search_textbook`),
* a discovery response (the `GET /v1beta/models` call),
* a generation oracle mapping (prompt, model, attempt index) to the HTTP
  outcome of one `POST …:generateContent` call.

`rag.py` is not among the sources, so `search_textbook` is modelled from the
spec (§4.1–4.2): it never raises and degrades to the empty list on any
embedding/store failure.  Everything else is translated from
src/backend/main.py.
-/

/-- A chat request body, `{message: string}` (main.py, `ChatRequest`). -/
structure ChatRequest where
  message : String
  deriving DecidableEq, Repr

/-- Modelled from the spec: one retrieved passage as returned by the absent
`rag.search_textbook` (spec §3, RetrievedPassage).  Only the text content is
used; main.py line 53 reads it under the "content" field. -/
structure Passage where
  content : String
  deriving DecidableEq, Repr

/-- Modelled from the spec: the vector store / embedding stage outcome for one
query.  `ok` carries the hits in relevance order; `failed` stands for any
embedding failure or store unavailability (spec §4.2). -/
inductive RetrievalOutcome where
  | ok (passages : List Passage)
  | failed
  deriving DecidableEq, Repr

/-- Modelled from the spec: `search_textbook(query, top_k)` from the absent
src/backend/rag.py.  Spec §4.2: at most `top_k` passages; on a `None`
embedding or any store-level error it returns the empty sequence and never
raises to the caller. -/
def search_textbook (query : String) (top_k : Nat) (r : RetrievalOutcome) :
    List Passage :=
  match r with
  | .ok ps => ps.take top_k
  | .failed => []

/-- One element of `data["candidates"]` in a 200 generation body.  `text` is
the value reached by `["content"]["parts"][0]["text"]` on main.py line 151;
`none` means some key on that path is missing, so the lookup raises. -/
structure GenCandidate where
  text : Option String
  deriving DecidableEq, Repr

/-- Parsed JSON body of a 200 generation response.  `candidates = none`
models a body without a "candidates" key (main.py line 150). -/
structure GenBody where
  candidates : Option (List GenCandidate)
  deriving DecidableEq, Repr

/-- One HTTP interaction of `client.post(url, …)` on main.py line 146.
`resp status body` is a completed response; `body = none` stands for a
non-JSON body, so that `response.json()` on line 149 raises.  `exn` is a
transport exception raised by the POST itself. -/
inductive GenResponse where
  | resp (status : Nat) (body : Option GenBody)
  | exn
  deriving DecidableEq, Repr

/-- What one iteration of the attempt loop (main.py lines 144-170) decides for
the HTTP outcome it observed: return an answer, enter the 429 handling, or
record a log entry and stop trying this model. -/
inductive StepClass where
  | success (answer : String)
  | rateLimited
  | failEntry (entry : String)
  deriving DecidableEq, Repr

/-- Lines 146-170, one loop iteration for `model`.  A 200 body is parsed; a
present, non-empty "candidates" list with a reachable text yields the answer
(line 151); a parse or key error is caught by the inner `except` and logged as
`"model: Error"` (line 169); a malformed 200 falls through to the final `else`
and is logged as `"model: 200"` (line 165); 429 enters the retry handling;
404 and every other status are logged with their code. -/
def classifyAttempt (model : String) (r : GenResponse) : StepClass :=
  match r with
  | .exn => .failEntry (model ++ ": Error")
  | .resp status body =>
    if status = 200 then
      match body with
      | none => .failEntry (model ++ ": Error")
      | some b =>
        match b.candidates with
        | some (c :: _) =>
          match c.text with
          | some t => .success t
          | none => .failEntry (model ++ ": Error")
        | _ => .failEntry (model ++ ": " ++ toString status)
    else if status = 429 then .rateLimited
    else if status = 404 then .failEntry (model ++ ": 404")
    else .failEntry (model ++ ": " ++ toString status)

/-- Final outcome of the two-attempt loop for one model. -/
inductive TryOutcome where
  | success (answer : String)
  | failure (entry : String)
  deriving DecidableEq, Repr

/-- Outcome of `for attempt in range(2)` for one model, with the number of
POST requests issued and the seconds spent in `asyncio.sleep`. -/
structure TryStats where
  outcome : TryOutcome
  requests : Nat
  sleepSeconds : Nat
  deriving DecidableEq, Repr

/-- The attempt loop of main.py lines 144-170 for a single model.  `o n` is
the HTTP outcome of the request issued at attempt `n`.  A first-attempt 429
sleeps 2 seconds (line 157) and retries once; a second-attempt 429 is logged
as `"model: 429"` (line 160); every other failure is logged at once and the
loop breaks. -/
def tryModel (model : String) (o : Nat → GenResponse) : TryStats :=
  match classifyAttempt model (o 0) with
  | .success t => ⟨.success t, 1, 0⟩
  | .failEntry e => ⟨.failure e, 1, 0⟩
  | .rateLimited =>
    match classifyAttempt model (o 1) with
    | .success t => ⟨.success t, 2, 2⟩
    | .failEntry e => ⟨.failure e, 2, 2⟩
    | .rateLimited => ⟨.failure (model ++ ": 429"), 2, 2⟩

/-- Accumulated state of the model loop (main.py lines 139-171): the returned
answer if some model succeeded, the `logs` list, total POST requests, total
backoff seconds, and the models for which at least one request was issued. -/
structure CascadeResult where
  answer : Option String
  logs : List String
  requests : Nat
  sleepSeconds : Nat
  modelsTried : List String
  deriving DecidableEq, Repr

/-- The model loop of main.py lines 139-171: models are tried in order; the
first success returns immediately; each failed model contributes exactly its
one log entry.  `gen prompt model n` is the outcome of the POST for `model`
at attempt `n` carrying `prompt`. -/
def runCascade (prompt : String) (models : List String)
    (gen : String → String → Nat → GenResponse) : CascadeResult :=
  match models with
  | [] => ⟨none, [], 0, 0, []⟩
  | m :: rest =>
    match tryModel m (gen prompt m) with
    | ⟨.success a, req, sl⟩ => ⟨some a, [], req, sl, [m]⟩
    | ⟨.failure e, req, sl⟩ =>
      let r := runCascade prompt rest gen
      ⟨r.answer, e :: r.logs, req + r.requests, sl + r.sleepSeconds,
        m :: r.modelsTried⟩

/-- One object of `data["models"]` in the discovery body (main.py lines
96-100).  `name = none` models an object without a "name" key: the
comprehension on line 97 then raises, the exception is caught on line 111 and
discovery yields nothing.  A missing "supportedGenerationMethods" key behaves
exactly like `[]` under the membership test on line 99 (`m.get(…, [])`), so
the field is a plain list. -/
structure DiscoveredModel where
  name : Option String
  supportedGenerationMethods : List String
  deriving DecidableEq, Repr

/-- The discovery GET of main.py line 90.  `resp status models` with
`models = none` covers both a non-JSON body (`resp.json()` raises, caught on
line 111) and a JSON body without a "models" key (line 94): either way the
available list stays empty.  `exn` is a transport exception. -/
inductive DiscoveryResponse where
  | resp (status : Nat) (models : Option (List DiscoveredModel))
  | exn
  deriving DecidableEq, Repr

/-- Left-to-right, non-overlapping replacement of `pat` by `rep` on character
lists, with fuel bounding the recursion by the input length; this is the
scan performed by Python `str.replace` (for a non-empty pattern). -/
def replaceCharsAux (pat rep : List Char) : Nat → List Char → List Char
  | _, [] => []
  | 0, l => l
  | fuel + 1, c :: rest =>
    if pat.isPrefixOf (c :: rest) then
      rep ++ replaceCharsAux pat rep fuel (List.drop (pat.length - 1) rest)
    else c :: replaceCharsAux pat rep fuel rest

/-- Python `s.replace(pat, rep)`: every non-overlapping occurrence replaced,
scanning left to right.  (The core library replacement has these semantics
too but does not reduce inside the kernel, so the scan is spelled out.) -/
def pyReplace (s pat rep : String) : String :=
  ⟨replaceCharsAux pat.data rep.data s.data.length s.data⟩

/-- The comprehension of main.py lines 96-100: keep the models supporting
"generateContent" and strip "models/" from their names (Python `str.replace`
removes every occurrence).  `none` when some kept model has no "name" key — a
KeyError then aborts the whole comprehension. -/
def extractNames : List DiscoveredModel → Option (List String)
  | [] => some []
  | m :: ms =>
    if m.supportedGenerationMethods.contains "generateContent" then
      match m.name, extractNames ms with
      | some n, some rest => some (pyReplace n "models/" "" :: rest)
      | _, _ => none
    else extractNames ms

/-- Python substring membership `sub in x`, on the character list of `x`. -/
def charsContain (sub : List Char) : List Char → Bool
  | [] => sub.isPrefixOf []
  | c :: rest => sub.isPrefixOf (c :: rest) || charsContain sub rest

/-- Python's `sub in x` for strings (main.py lines 105-107). -/
def containsSub (x sub : String) : Bool :=
  charsContain sub.data x.data

/-- The sort key of main.py line 104: the Python tuple
(`"2.0" not in x`, `"1.5" not in x`, `"flash" not in x`) compared
lexicographically with `False < True`, encoded as the number
`4*b1 + 2*b2 + b3` in `0..7`, so that smaller means preferred. -/
def prefKey (x : String) : Nat :=
  (if containsSub x "2.0" then 0 else 4) +
    (if containsSub x "1.5" then 0 else 2) +
    (if containsSub x "flash" then 0 else 1)

/-- The comparison realised by `available_models.sort(key=…)`. -/
def prefLE (x y : String) : Prop :=
  prefKey x ≤ prefKey y

instance : DecidableRel prefLE := fun x y => Nat.decLe (prefKey x) (prefKey y)

/-- Line 104's `available_models.sort(key=…)`: Python `list.sort` is a stable
sort by the key, and a stable sort by a total preorder is unique, so it is
embedded as insertion sort by `prefLE`. -/
def prioritySort (names : List String) : List String :=
  List.insertionSort prefLE names

/-- `available_models` as left by the discovery phase, main.py lines 86-112:
empty unless the GET returned 200 with a parsable body carrying "models", and
the comprehension succeeded; the kept names are sorted by preference. -/
def discoverModels (d : DiscoveryResponse) : List String :=
  match d with
  | .exn => []
  | .resp status models =>
    if status = 200 then
      match models with
      | none => []
      | some ms =>
        match extractNames ms with
        | none => []
        | some names => prioritySort names
    else []

/-- The hardcoded fallback list of main.py lines 117-122. -/
def fallbackModels : List String :=
  ["gemini-2.0-flash-exp", "gemini-1.5-flash", "gemini-1.5-flash-8b",
    "gemini-pro"]

/-- Main.py lines 116-122: the static list replaces an empty discovery
result. -/
def candidateList (d : DiscoveryResponse) : List String :=
  let available := discoverModels d
  if available.isEmpty then fallbackModels else available

/-- The system instruction string of main.py line 56. -/
def system_instruction : String :=
  "You are an AI Tutor for the \x27Physical AI & Humanoid Robotics\x27 textbook. Answer based ONLY on the context. If context is empty, say you don\x27t know."

/-- The f-string of main.py lines 128-133 (`final_prompt`), indentation
included. -/
def assemblePrompt (context_text message : String) : String :=
  system_instruction ++ "\n            Context:\n            " ++
    context_text ++ "\n            Question:\n            " ++ message ++
    "\n            "

/-- `context_text` of main.py lines 52-53: the "content" fields of the top-3
retrieved chunks joined by a blank line. -/
def contextTextOf (r : RetrievalOutcome) (msg : String) : String :=
  String.intercalate "\n\n" ((search_textbook msg 3 r).map (·.content))

/-- The fixed missing-credential message of main.py line 44. -/
def missingKeyMsg : String :=
  "Error: API Key missing. Please set \x27AI_API_KEY\x27 or \x27GOOGLE_API_KEY\x27 in Vercel."

/-- The fixed message of the outer exception handler, main.py line 176. -/
def internalErrorMsg : String :=
  "Sorry, I encountered an internal error."

/-- The terminal-failure message of main.py line 172: the joined diagnostic
log and the first four characters of the API key. -/
def exhaustMsg (logs : List String) (apiKey : String) : String :=
  "Error: All models failed. Debug: " ++ String.intercalate ", " logs ++
    ". Key: " ++ apiKey.take 4 ++ "..."

/-- The endpoint's payload, `{response: string}`. -/
structure ChatResponse where
  response : String
  deriving DecidableEq, Repr

/-- Upstream calls made during one run: retrieval-stage calls (embedding +
vector store, modelled from the spec as one stage call), discovery GETs, and
generation POSTs. -/
structure NetworkTrace where
  retrievalCalls : Nat
  discoveryCalls : Nat
  generationRequests : Nat
  deriving DecidableEq, Repr

/-- `chat_endpoint` of src/backend/main.py lines 41-176.  The API key is a
string, `""` standing for a missing or falsy `API_KEY` (line 42; `os.getenv`
composition yields `None` or `""`, both falsy and otherwise unused).  With
`search_textbook` modelled from the spec as non-raising, and every
response-processing exception of the loop caught by the inner `except`
(already folded into `classifyAttempt`), the body of the `try` on line 50 is
total, so the handler of lines 174-176 (`internalErrorMsg`) is never
reached. -/
def chat_endpoint (apiKey : String) (req : ChatRequest)
    (retr : RetrievalOutcome) (disc : DiscoveryResponse)
    (gen : String → String → Nat → GenResponse) :
    ChatResponse × NetworkTrace :=
  if apiKey = "" then (⟨missingKeyMsg⟩, ⟨0, 0, 0⟩)
  else
    let context_text := contextTextOf retr req.message
    let final_prompt := assemblePrompt context_text req.message
    let models := candidateList disc
    let c := runCascade final_prompt models gen
    match c.answer with
    | some a => (⟨a⟩, ⟨1, 1, c.requests⟩)
    | none => (⟨exhaustMsg c.logs apiKey⟩, ⟨1, 1, c.requests⟩)

/-- The generation oracle of C3: candidate "A" is rate-limited (429) on every
attempt, "B" answers 404, "C" answers 200 with the text "ans". -/
def genC3 : String → String → Nat → GenResponse := fun _ model _ =>
  if model = "A" then .resp 429 none
  else if model = "B" then .resp 404 none
  else .resp 200 (some ⟨some [⟨some "ans"⟩]⟩)

/-- An oracle that is rate-limited on every request. -/
def gen429 : String → String → Nat → GenResponse := fun _ _ _ => .resp 429 none

/-- An oracle that answers 404 on every request. -/
def gen404 : String → String → Nat → GenResponse := fun _ _ _ => .resp 404 none

/-- An oracle that succeeds with text "ok" on every request. -/
def genOk : String → String → Nat → GenResponse := fun _ _ _ =>
  .resp 200 (some ⟨some [⟨some "ok"⟩]⟩)

/-- An all-failing generation oracle (status 500 on every request). -/
def gen500 : String → String → Nat → GenResponse := fun _ _ _ => .resp 500 none

/-- A concrete discovery body: two generation-capable models (with the
"models/" prefix to strip) and one embedding-only model. -/
def discBodyW : List DiscoveredModel :=
  [⟨some "models/gemini-1.5-pro", ["generateContent"]⟩,
    ⟨some "models/gemini-2.0-flash-exp", ["generateContent"]⟩,
    ⟨some "models/embedding-001", ["embedContent"]⟩]

instance : IsTotal String prefLE :=
  ⟨fun a b => Nat.le_total (prefKey a) (prefKey b)⟩

instance : IsTrans String prefLE :=
  ⟨fun _ _ _ hab hbc => Nat.le_trans hab hbc⟩

/-- Reassociation of a log entry around the ": " separator. -/
theorem entry_assoc (m code : String) :
    m ++ (": " ++ code) = m ++ ": " ++ code :=
  (String.append_assoc m ": " code).symm

/-- A loop iteration enters the 429 handling exactly for a 429 status. -/
theorem classifyAttempt_eq_rateLimited (m : String) (r : GenResponse) :
    classifyAttempt m r = .rateLimited ↔ ∃ b, r = .resp 429 b := by
  cases r with
  | exn => simp [classifyAttempt]
  | resp s b =>
    constructor
    · intro h
      simp only [classifyAttempt] at h
      split at h
      · rcases b with _ | ⟨gb⟩
        · simp at h
        · rcases hc : gb.candidates with _ | ⟨_ | ⟨c, cs⟩⟩ <;> simp [hc] at h
          rcases htext : c.text with _ | t <;> simp [htext] at h
      · split at h
        · next h429 => exact ⟨b, by rw [h429]⟩
        · split at h <;> simp_all
    · rintro ⟨b', hb⟩
      injection hb with h1 h2
      subst h1; subst h2
      simp [classifyAttempt]

/-- A loop iteration returns an answer exactly for a 200 response whose body
parses with a non-empty candidates list and a reachable text. -/
theorem classifyAttempt_eq_success (m : String) (r : GenResponse) (t : String) :
    classifyAttempt m r = .success t ↔
      ∃ b c cs, r = .resp 200 (some b) ∧ b.candidates = some (c :: cs) ∧
        c.text = some t := by
  cases r with
  | exn => simp [classifyAttempt]
  | resp s b =>
    constructor
    · intro h
      simp only [classifyAttempt] at h
      split at h
      · next h200 =>
        subst h200
        rcases b with _ | ⟨gb⟩
        · simp at h
        · rcases hc : gb.candidates with _ | ⟨_ | ⟨c, cs⟩⟩ <;> simp [hc] at h
          rcases htext : c.text with _ | t2 <;> simp [htext] at h
          exact ⟨gb, c, cs, rfl, hc, by rw [htext, h]⟩
      · split at h
        · simp at h
        · split at h <;> simp_all
    · rintro ⟨gb, c, cs, hb, hc, htext⟩
      injection hb with h1 h2
      subst h1; subst h2
      simp [classifyAttempt, hc, htext]

/-- Every log entry produced by a loop iteration is the model id followed by
an outcome code. -/
theorem classifyAttempt_failEntry_form (m : String) (r : GenResponse)
    (e : String) (h : classifyAttempt m r = .failEntry e) :
    ∃ code, e = m ++ ": " ++ code := by
  cases r with
  | exn =>
    simp only [classifyAttempt] at h
    injection h with h1
    subst h1
    exact ⟨"Error", by rw [← entry_assoc]; exact rfl⟩
  | resp s b =>
    simp only [classifyAttempt] at h
    split at h
    · rcases b with _ | ⟨gb⟩
      · injection h with h1
        subst h1
        exact ⟨"Error", by rw [← entry_assoc]; exact rfl⟩
      · rcases hc : gb.candidates with _ | ⟨_ | ⟨c, cs⟩⟩ <;> simp [hc] at h
        · exact ⟨toString s, by rw [← h]⟩
        · exact ⟨toString s, by rw [← h]⟩
        · rcases htext : c.text with _ | t <;> simp [htext] at h
          exact ⟨"Error", by rw [← h, ← entry_assoc]; exact rfl⟩
    · split at h
      · simp at h
      · split at h
        · injection h with h1
          subst h1
          exact ⟨"404", by rw [← entry_assoc]; exact rfl⟩
        · injection h with h1
          subst h1
          exact ⟨toString s, rfl⟩

/-- At most two requests are ever issued to one model. -/
theorem tryModel_requests_le_two (m : String) (o : Nat → GenResponse) :
    (tryModel m o).requests ≤ 2 := by
  unfold tryModel
  rcases classifyAttempt m (o 0) with t | _ | e <;> simp
  rcases classifyAttempt m (o 1) with t | _ | e <;> simp

/-- At least one request is issued to one model. -/
theorem tryModel_requests_pos (m : String) (o : Nat → GenResponse) :
    1 ≤ (tryModel m o).requests := by
  unfold tryModel
  rcases classifyAttempt m (o 0) with t | _ | e <;> simp
  rcases classifyAttempt m (o 1) with t | _ | e <;> simp

/-- A failed model's log entry is the model id followed by an outcome code. -/
theorem tryModel_failure_form (m : String) (o : Nat → GenResponse)
    (e : String) (h : (tryModel m o).outcome = .failure e) :
    ∃ code, e = m ++ ": " ++ code := by
  unfold tryModel at h
  rcases h0 : classifyAttempt m (o 0) with t | _ | e0 <;> rw [h0] at h <;>
    simp at h
  · rcases h1 : classifyAttempt m (o 1) with t | _ | e1 <;> rw [h1] at h <;>
      simp at h
    · exact ⟨"429", by rw [← h, ← entry_assoc]; exact rfl⟩
    · exact h ▸ classifyAttempt_failEntry_form m (o 1) e1 h1
  · exact h ▸ classifyAttempt_failEntry_form m (o 0) e0 h0

/-- A successful `tryModel` originates in a successful attempt, at index 0
or 1. -/
theorem tryModel_success_origin (m : String) (o : Nat → GenResponse)
    (a : String) (h : (tryModel m o).outcome = .success a) :
    ∃ i, i ≤ 1 ∧ classifyAttempt m (o i) = .success a := by
  unfold tryModel at h
  rcases h0 : classifyAttempt m (o 0) with t | _ | e0 <;> rw [h0] at h <;>
    simp at h
  · exact ⟨0, by omega, by rw [h0, h]⟩
  · rcases h1 : classifyAttempt m (o 1) with t | _ | e1 <;> rw [h1] at h <;>
      simp at h
    exact ⟨1, by omega, by rw [h1, h]⟩

/-- Unfolding of the cascade when the head model fails. -/
theorem runCascade_cons_failure (p m : String) (rest : List String)
    (gen : String → String → Nat → GenResponse) (e : String)
    (req sl : Nat) (h : tryModel m (gen p m) = ⟨.failure e, req, sl⟩) :
    runCascade p (m :: rest) gen =
      ⟨(runCascade p rest gen).answer, e :: (runCascade p rest gen).logs,
        req + (runCascade p rest gen).requests,
        sl + (runCascade p rest gen).sleepSeconds,
        m :: (runCascade p rest gen).modelsTried⟩ := by
  rw [runCascade, h]

/-- Unfolding of the cascade when the head model succeeds. -/
theorem runCascade_cons_success (p m : String) (rest : List String)
    (gen : String → String → Nat → GenResponse) (a : String)
    (req sl : Nat) (h : tryModel m (gen p m) = ⟨.success a, req, sl⟩) :
    runCascade p (m :: rest) gen = ⟨some a, [], req, sl, [m]⟩ := by
  rw [runCascade, h]

/-- With at least one candidate, at least one generation request is made. -/
theorem runCascade_requests_pos (p : String) (m : String)
    (rest : List String) (gen : String → String → Nat → GenResponse) :
    1 ≤ (runCascade p (m :: rest) gen).requests := by
  rcases h : tryModel m (gen p m) with ⟨o, req, sl⟩
  have hreq : 1 ≤ req := by
    have h2 := tryModel_requests_pos m (gen p m)
    rw [h] at h2
    exact h2
  rcases o with a | e
  · rw [runCascade_cons_success p m rest gen a req sl h]
    exact hreq
  · rw [runCascade_cons_failure p m rest gen e req sl h]
    simp only
    omega

/-- When no model answers, the log holds, in candidate order, one entry per
candidate, formed of the candidate id and an outcome code. -/
theorem runCascade_exhaust_log (p : String) (models : List String)
    (gen : String → String → Nat → GenResponse)
    (h : (runCascade p models gen).answer = none) :
    (runCascade p models gen).logs.length = models.length ∧
      ∀ i (h1 : i < (runCascade p models gen).logs.length)
        (h2 : i < models.length),
        ∃ code, (runCascade p models gen).logs.get ⟨i, h1⟩ =
          models.get ⟨i, h2⟩ ++ ": " ++ code := by
  induction models with
  | nil =>
    refine ⟨rfl, ?_⟩
    intro i h1 h2
    simp [runCascade] at h2
  | cons m rest ih =>
    rcases htry : tryModel m (gen p m) with ⟨o, req, sl⟩
    rcases o with a | e
    · rw [runCascade_cons_success p m rest gen a req sl htry] at h
      simp at h
    · rw [runCascade_cons_failure p m rest gen e req sl htry] at h ⊢
      simp only at h
      obtain ⟨hlen, hidx⟩ := ih h
      refine ⟨by simpa using hlen, ?_⟩
      intro i h1 h2
      match i with
      | 0 =>
        have hout : (tryModel m (gen p m)).outcome = .failure e := by
          rw [htry]
        exact tryModel_failure_form m (gen p m) e hout
      | i + 1 =>
        simp only [List.get_cons_succ]
        exact hidx i (by simpa using h1) (by simpa using h2)

/-- A successful cascade answer originates in a successful attempt of one of
the candidates. -/
theorem runCascade_success_origin (p : String) (models : List String)
    (gen : String → String → Nat → GenResponse) (a : String)
    (h : (runCascade p models gen).answer = some a) :
    ∃ m, m ∈ models ∧ ∃ i, i ≤ 1 ∧
      classifyAttempt m (gen p m i) = .success a := by
  induction models with
  | nil => simp [runCascade] at h
  | cons m rest ih =>
    rcases htry : tryModel m (gen p m) with ⟨o, req, sl⟩
    rcases o with a2 | e
    · rw [runCascade_cons_success p m rest gen a2 req sl htry] at h
      simp only at h
      injection h with h2
      have hout : (tryModel m (gen p m)).outcome = .success a := by
        rw [htry, h2]
      obtain ⟨i, hi, hcl⟩ := tryModel_success_origin m (gen p m) a hout
      exact ⟨m, List.mem_cons_self m rest, i, hi, hcl⟩
    · rw [runCascade_cons_failure p m rest gen e req sl htry] at h
      simp only at h
      obtain ⟨m2, hm2, hrest⟩ := ih h
      exact ⟨m2, List.mem_cons_of_mem m hm2, hrest⟩

/-- The candidate list is never empty: an empty discovery result is replaced
by the non-empty static fallback. -/
theorem candidateList_ne_nil (d : DiscoveryResponse) : candidateList d ≠ [] := by
  unfold candidateList
  cases hemp : (discoverModels d).isEmpty with
  | true => simp [hemp, fallbackModels]
  | false =>
    simp only [hemp, Bool.false_eq_true, if_false]
    intro hc
    rw [hc] at hemp
    simp at hemp

/-- With a missing (falsy) key the endpoint short-circuits. -/
theorem chat_endpoint_missing_key (req : ChatRequest) (retr : RetrievalOutcome)
    (disc : DiscoveryResponse) (gen : String → String → Nat → GenResponse) :
    chat_endpoint "" req retr disc gen = (⟨missingKeyMsg⟩, ⟨0, 0, 0⟩) := rfl

/-- With a key present and a successful cascade, the endpoint returns the
cascade's answer. -/
theorem chat_endpoint_success (apiKey : String) (hk : apiKey ≠ "")
    (req : ChatRequest) (retr : RetrievalOutcome) (disc : DiscoveryResponse)
    (gen : String → String → Nat → GenResponse) (a : String)
    (h : (runCascade (assemblePrompt (contextTextOf retr req.message)
      req.message) (candidateList disc) gen).answer = some a) :
    chat_endpoint apiKey req retr disc gen =
      (⟨a⟩, ⟨1, 1, (runCascade (assemblePrompt (contextTextOf retr
        req.message) req.message) (candidateList disc) gen).requests⟩) := by
  unfold chat_endpoint
  rw [if_neg hk]
  simp only [h]

/-- With a key present and the cascade exhausted, the endpoint returns the
terminal-failure message over the accumulated log. -/
theorem chat_endpoint_exhaust (apiKey : String) (hk : apiKey ≠ "")
    (req : ChatRequest) (retr : RetrievalOutcome) (disc : DiscoveryResponse)
    (gen : String → String → Nat → GenResponse)
    (h : (runCascade (assemblePrompt (contextTextOf retr req.message)
      req.message) (candidateList disc) gen).answer = none) :
    chat_endpoint apiKey req retr disc gen =
      (⟨exhaustMsg (runCascade (assemblePrompt (contextTextOf retr
          req.message) req.message) (candidateList disc) gen).logs apiKey⟩,
        ⟨1, 1, (runCascade (assemblePrompt (contextTextOf retr req.message)
          req.message) (candidateList disc) gen).requests⟩) := by
  unfold chat_endpoint
  rw [if_neg hk]
  simp only [h]

/-- C1: for every incoming query, the chat endpoint never raises past its
boundary: it always returns a `{response: string}` payload whose string is
the fixed missing-credential message, a successful cascade answer, the
terminal cascade-failure message, or the fixed internal-error message of the
outer exception handler. -/
theorem c1_endpoint_always_returns_response (apiKey : String)
    (req : ChatRequest) (retr : RetrievalOutcome) (disc : DiscoveryResponse)
    (gen : String → String → Nat → GenResponse) :
    ∃ s : String,
      (chat_endpoint apiKey req retr disc gen).1 = ⟨s⟩ ∧
      (s = missingKeyMsg ∨
        (runCascade (assemblePrompt (contextTextOf retr req.message)
          req.message) (candidateList disc) gen).answer = some s ∨
        (∃ logs, s = exhaustMsg logs apiKey) ∨
        s = internalErrorMsg) := by
  by_cases hk : apiKey = ""
  · subst hk
    exact ⟨missingKeyMsg, by rw [chat_endpoint_missing_key], Or.inl rfl⟩
  · rcases hans : (runCascade (assemblePrompt (contextTextOf retr
        req.message) req.message) (candidateList disc) gen).answer with _ | a
    · refine ⟨exhaustMsg (runCascade (assemblePrompt (contextTextOf retr
        req.message) req.message) (candidateList disc) gen).logs apiKey,
        ?_, Or.inr (Or.inr (Or.inl ⟨_, rfl⟩))⟩
      rw [chat_endpoint_exhaust apiKey hk req retr disc gen hans]
    · exact ⟨a, by rw [chat_endpoint_success apiKey hk req retr disc gen a
        hans], Or.inr (Or.inl rfl)⟩

/-- C2: retrieval failure never aborts the query: the prompt's Context block
is the empty string, and the endpoint's outcome is exactly the cascade's
outcome over that empty-context prompt, with at least one generation request
issued. -/
theorem c2_retrieval_failure_degrades (apiKey : String) (hk : apiKey ≠ "")
    (req : ChatRequest) (disc : DiscoveryResponse)
    (gen : String → String → Nat → GenResponse) :
    contextTextOf .failed req.message = "" ∧
    1 ≤ (chat_endpoint apiKey req .failed disc gen).2.generationRequests ∧
    chat_endpoint apiKey req .failed disc gen =
      ((match (runCascade (assemblePrompt "" req.message)
          (candidateList disc) gen).answer with
        | some a => (⟨a⟩ : ChatResponse)
        | none => ⟨exhaustMsg (runCascade (assemblePrompt "" req.message)
            (candidateList disc) gen).logs apiKey⟩),
        ⟨1, 1, (runCascade (assemblePrompt "" req.message)
          (candidateList disc) gen).requests⟩) := by
  have hctx : contextTextOf .failed req.message = "" := rfl
  refine ⟨hctx, ?_, ?_⟩
  · rcases hmodels : candidateList disc with _ | ⟨m, rest⟩
    · exact absurd hmodels (candidateList_ne_nil disc)
    · rcases hans : (runCascade (assemblePrompt (contextTextOf .failed
          req.message) req.message) (candidateList disc) gen).answer with _ | a
      · rw [chat_endpoint_exhaust apiKey hk req .failed disc gen hans]
        rw [hctx, hmodels] at hans ⊢
        exact runCascade_requests_pos _ m rest gen
      · rw [chat_endpoint_success apiKey hk req .failed disc gen a hans]
        rw [hctx, hmodels] at hans ⊢
        exact runCascade_requests_pos _ m rest gen
  · rcases hans : (runCascade (assemblePrompt (contextTextOf .failed
        req.message) req.message) (candidateList disc) gen).answer with _ | a
    · rw [chat_endpoint_exhaust apiKey hk req .failed disc gen hans]
      rw [hctx] at hans ⊢
      rw [hans]
    · rw [chat_endpoint_success apiKey hk req .failed disc gen a hans]
      rw [hctx] at hans ⊢
      rw [hans]

/-- Witness for C2 at a concrete key, query, discovery failure and
all-failing generation oracle. -/
theorem c2_retrieval_failure_degrades_witness :
    contextTextOf .failed ("q" : String) = "" ∧
    1 ≤ (chat_endpoint "k" ⟨"q"⟩ .failed .exn
      (fun _ _ _ => .exn)).2.generationRequests ∧
    chat_endpoint "k" ⟨"q"⟩ .failed .exn (fun _ _ _ => .exn) =
      ((match (runCascade (assemblePrompt "" "q") (candidateList .exn)
          (fun _ _ _ => .exn)).answer with
        | some a => (⟨a⟩ : ChatResponse)
        | none => ⟨exhaustMsg (runCascade (assemblePrompt "" "q")
            (candidateList .exn) (fun _ _ _ => .exn)).logs "k"⟩),
        ⟨1, 1, (runCascade (assemblePrompt "" "q") (candidateList .exn)
          (fun _ _ _ => .exn)).requests⟩) :=
  c2_retrieval_failure_degrades "k" (by decide) ⟨"q"⟩ .exn (fun _ _ _ => .exn)

/-- C3: on candidates [A, B, C] with A rate-limited on both attempts, B
not-found and C succeeding with "ans", the cascade returns "ans"; the log has
exactly the entries for A and for B (so none for C); A consumed 2 requests
and one 2-second backoff, B and C one request each. -/
theorem c3_cascade_scenario :
    runCascade "p" ["A", "B", "C"] genC3 =
      ⟨some "ans", ["A: 429", "B: 404"], 4, 2, ["A", "B", "C"]⟩ := by
  decide

/-- C9: with no API credential configured, the endpoint returns the fixed
missing-credential message and performs zero network calls: no retrieval, no
discovery, no generation request. -/
theorem c9_missing_key_no_network (req : ChatRequest)
    (retr : RetrievalOutcome) (disc : DiscoveryResponse)
    (gen : String → String → Nat → GenResponse) :
    chat_endpoint "" req retr disc gen =
      (⟨missingKeyMsg⟩, ⟨0, 0, 0⟩) :=
  chat_endpoint_missing_key req retr disc gen

/-- C4: a 429 response on a candidate's first attempt causes the fixed
2-second backoff and a retry of the same candidate, within the bound of 2
requests per candidate; a candidate still rate-limited on its second attempt
is recorded in the log as "model: 429" and the cascade advances to the next
candidate. -/
theorem c4_rate_limit_backoff_retry (p m : String) (rest : List String)
    (gen : String → String → Nat → GenResponse) (b0 : Option GenBody)
    (h0 : gen p m 0 = .resp 429 b0) :
    (tryModel m (gen p m)).requests = 2 ∧
    (tryModel m (gen p m)).sleepSeconds = 2 ∧
    (∀ o : Nat → GenResponse, (tryModel m o).requests ≤ 2) ∧
    (∀ b1 : Option GenBody, gen p m 1 = .resp 429 b1 →
      tryModel m (gen p m) = ⟨.failure (m ++ ": 429"), 2, 2⟩ ∧
      runCascade p (m :: rest) gen =
        ⟨(runCascade p rest gen).answer,
          (m ++ ": 429") :: (runCascade p rest gen).logs,
          2 + (runCascade p rest gen).requests,
          2 + (runCascade p rest gen).sleepSeconds,
          m :: (runCascade p rest gen).modelsTried⟩) := by
  have hcl0 : classifyAttempt m (gen p m 0) = .rateLimited :=
    (classifyAttempt_eq_rateLimited m (gen p m 0)).mpr ⟨b0, h0⟩
  refine ⟨?_, ?_, fun o => tryModel_requests_le_two m o, ?_⟩
  · unfold tryModel
    rw [hcl0]
    rcases classifyAttempt m (gen p m 1) with t | _ | e <;> rfl
  · unfold tryModel
    rw [hcl0]
    rcases classifyAttempt m (gen p m 1) with t | _ | e <;> rfl
  · intro b1 h1
    have hcl1 : classifyAttempt m (gen p m 1) = .rateLimited :=
      (classifyAttempt_eq_rateLimited m (gen p m 1)).mpr ⟨b1, h1⟩
    have htry : tryModel m (gen p m) = ⟨.failure (m ++ ": 429"), 2, 2⟩ := by
      unfold tryModel
      rw [hcl0, hcl1]
    exact ⟨htry, runCascade_cons_failure p m rest gen (m ++ ": 429") 2 2 htry⟩

/-- Witness for C4 with candidate "A" rate-limited on both attempts, "B"
next in line. -/
theorem c4_rate_limit_backoff_retry_witness :
    (tryModel "A" (gen429 "p" "A")).requests = 2 ∧
    (tryModel "A" (gen429 "p" "A")).sleepSeconds = 2 ∧
    (∀ o : Nat → GenResponse, (tryModel "A" o).requests ≤ 2) ∧
    (∀ b1 : Option GenBody, gen429 "p" "A" 1 = .resp 429 b1 →
      tryModel "A" (gen429 "p" "A") = ⟨.failure ("A" ++ ": 429"), 2, 2⟩ ∧
      runCascade "p" ("A" :: ["B"]) gen429 =
        ⟨(runCascade "p" ["B"] gen429).answer,
          ("A" ++ ": 429") :: (runCascade "p" ["B"] gen429).logs,
          2 + (runCascade "p" ["B"] gen429).requests,
          2 + (runCascade "p" ["B"] gen429).sleepSeconds,
          "A" :: (runCascade "p" ["B"] gen429).modelsTried⟩) :=
  c4_rate_limit_backoff_retry "p" "A" ["B"] gen429 none rfl

/-- C5: a candidate whose first response is anything other than rate-limited
or success — not-found, another error status, a transport exception, or a
malformed 200 — is never retried: exactly one request is issued, no backoff
happens, one entry (candidate id plus outcome code) is recorded, and the
cascade advances to the remaining candidates. -/
theorem c5_non_retryable_advance (p m : String) (rest : List String)
    (gen : String → String → Nat → GenResponse)
    (hnot429 : ∀ b, gen p m 0 ≠ .resp 429 b)
    (hnosucc : ∀ t, classifyAttempt m (gen p m 0) ≠ .success t) :
    ∃ e, classifyAttempt m (gen p m 0) = .failEntry e ∧
      tryModel m (gen p m) = ⟨.failure e, 1, 0⟩ ∧
      (∃ code, e = m ++ ": " ++ code) ∧
      runCascade p (m :: rest) gen =
        ⟨(runCascade p rest gen).answer, e :: (runCascade p rest gen).logs,
          1 + (runCascade p rest gen).requests,
          0 + (runCascade p rest gen).sleepSeconds,
          m :: (runCascade p rest gen).modelsTried⟩ := by
  rcases hcl : classifyAttempt m (gen p m 0) with t | _ | e
  · exact absurd hcl (hnosucc t)
  · obtain ⟨b, hb⟩ := (classifyAttempt_eq_rateLimited m (gen p m 0)).mp hcl
    exact absurd hb (hnot429 b)
  · have htry : tryModel m (gen p m) = ⟨.failure e, 1, 0⟩ := by
      unfold tryModel
      rw [hcl]
    exact ⟨e, rfl, htry, classifyAttempt_failEntry_form m (gen p m 0) e hcl,
      runCascade_cons_failure p m rest gen e 1 0 htry⟩

/-- Witness for C5 with candidate "A" answering 404, "B" next in line. -/
theorem c5_non_retryable_advance_witness :
    ∃ e, classifyAttempt "A" (gen404 "p" "A" 0) = .failEntry e ∧
      tryModel "A" (gen404 "p" "A") = ⟨.failure e, 1, 0⟩ ∧
      (∃ code, e = "A" ++ ": " ++ code) ∧
      runCascade "p" ("A" :: ["B"]) gen404 =
        ⟨(runCascade "p" ["B"] gen404).answer,
          e :: (runCascade "p" ["B"] gen404).logs,
          1 + (runCascade "p" ["B"] gen404).requests,
          0 + (runCascade "p" ["B"] gen404).sleepSeconds,
          "A" :: (runCascade "p" ["B"] gen404).modelsTried⟩ :=
  c5_non_retryable_advance "p" "A" ["B"] gen404
    (fun b h => by simp [gen404] at h)
    (fun t h => by simp [gen404, classifyAttempt] at h)

/-- C6: the cascade returns immediately on the first candidate whose response
carries a non-empty answer payload, with that answer's text, trying no later
candidate; and conversely any successful cascade answer originates in such a
response of one of the candidates. -/
theorem c6_first_success_wins (p m : String) (rest : List String)
    (gen : String → String → Nat → GenResponse) (b : GenBody)
    (c : GenCandidate) (cs : List GenCandidate) (t : String)
    (hresp : gen p m 0 = .resp 200 (some b))
    (hcand : b.candidates = some (c :: cs)) (htext : c.text = some t) :
    runCascade p (m :: rest) gen = ⟨some t, [], 1, 0, [m]⟩ ∧
    (∀ (models : List String) (a : String),
      (runCascade p models gen).answer = some a →
      ∃ m2, m2 ∈ models ∧ ∃ i, i ≤ 1 ∧ ∃ b2 c2 cs2,
        gen p m2 i = .resp 200 (some b2) ∧
        b2.candidates = some (c2 :: cs2) ∧ c2.text = some a) := by
  constructor
  · have hcl : classifyAttempt m (gen p m 0) = .success t :=
      (classifyAttempt_eq_success m (gen p m 0) t).mpr
        ⟨b, c, cs, hresp, hcand, htext⟩
    have htry : tryModel m (gen p m) = ⟨.success t, 1, 0⟩ := by
      unfold tryModel
      rw [hcl]
    exact runCascade_cons_success p m rest gen t 1 0 htry
  · intro models a h
    obtain ⟨m2, hm2, i, hi, hcl⟩ := runCascade_success_origin p models gen a h
    obtain ⟨b2, c2, cs2, h1, h2, h3⟩ :=
      (classifyAttempt_eq_success m2 (gen p m2 i) a).mp hcl
    exact ⟨m2, hm2, i, hi, b2, c2, cs2, h1, h2, h3⟩

/-- Witness for C6 with candidate "A" succeeding at once, "B" never tried. -/
theorem c6_first_success_wins_witness :
    runCascade "p" ("A" :: ["B"]) genOk = ⟨some "ok", [], 1, 0, ["A"]⟩ ∧
    (∀ (models : List String) (a : String),
      (runCascade "p" models genOk).answer = some a →
      ∃ m2, m2 ∈ models ∧ ∃ i, i ≤ 1 ∧ ∃ b2 c2 cs2,
        genOk "p" m2 i = .resp 200 (some b2) ∧
        b2.candidates = some (c2 :: cs2) ∧ c2.text = some a) :=
  c6_first_success_wins "p" "A" ["B"] genOk ⟨some [⟨some "ok"⟩]⟩
    ⟨some "ok"⟩ [] "ok" rfl rfl rfl

/-- The priority sort is a permutation of its input. -/
theorem prioritySort_perm (names : List String) :
    (prioritySort names).Perm names :=
  List.perm_insertionSort prefLE names

/-- The priority sort never empties a non-empty list. -/
theorem prioritySort_ne_nil (names : List String) (hne : names ≠ []) :
    prioritySort names ≠ [] := by
  intro hnil
  apply hne
  have hperm := prioritySort_perm names
  rw [hnil] at hperm
  exact (List.Perm.nil_eq hperm).symm

/-- C7: the candidate list equals the static fallback when discovery fails
(transport exception, non-200 status, unusable body, comprehension error) or
yields an empty set; otherwise it is the discovered generation-capable names
re-ordered by the preference key — a permutation, sorted by the key, stable
on equal keys — where the key puts 2.0 first, then 1.5, then the rest, and
"flash" variants first within a version bucket. -/
theorem c7_candidate_list (ms : List DiscoveredModel) (names : List String)
    (hnames : extractNames ms = some names) (hne : names ≠ []) :
    candidateList .exn = fallbackModels ∧
    (∀ (s : Nat) (mso : Option (List DiscoveredModel)), s ≠ 200 →
      candidateList (.resp s mso) = fallbackModels) ∧
    candidateList (.resp 200 none) = fallbackModels ∧
    (∀ ms2 : List DiscoveredModel, extractNames ms2 = none →
      candidateList (.resp 200 (some ms2)) = fallbackModels) ∧
    (∀ ms2 : List DiscoveredModel, extractNames ms2 = some [] →
      candidateList (.resp 200 (some ms2)) = fallbackModels) ∧
    candidateList (.resp 200 (some ms)) = prioritySort names ∧
    (prioritySort names).Perm names ∧
    (prioritySort names).Pairwise (fun x y => prefKey x ≤ prefKey y) ∧
    (∀ x y : String, prefKey x = prefKey y → List.Sublist [x, y] names →
      List.Sublist [x, y] (prioritySort names)) ∧
    (∀ x y : String, containsSub x "2.0" = true →
      containsSub y "2.0" = false → prefKey x < prefKey y) ∧
    (∀ x y : String, containsSub x "2.0" = containsSub y "2.0" →
      containsSub x "1.5" = true → containsSub y "1.5" = false →
      prefKey x < prefKey y) ∧
    (∀ x y : String, containsSub x "2.0" = containsSub y "2.0" →
      containsSub x "1.5" = containsSub y "1.5" →
      containsSub x "flash" = true → containsSub y "flash" = false →
      prefKey x < prefKey y) := by
  refine ⟨rfl, ?_, rfl, ?_, ?_, ?_, prioritySort_perm names, ?_, ?_, ?_, ?_, ?_⟩
  · intro s mso hs
    simp [candidateList, discoverModels, hs]
  · intro ms2 h
    simp [candidateList, discoverModels, h]
  · intro ms2 h
    simp [candidateList, discoverModels, h, prioritySort]
  · have hdisc : discoverModels (.resp 200 (some ms)) = prioritySort names := by
      simp [discoverModels, hnames]
    unfold candidateList
    rw [hdisc]
    rcases hP : prioritySort names with _ | ⟨a, l⟩
    · exact absurd hP (prioritySort_ne_nil names hne)
    · rfl
  · exact List.sorted_insertionSort prefLE names
  · intro x y hk hsub
    show List.Sublist [x, y] (List.insertionSort prefLE names)
    exact List.pair_sublist_insertionSort (le_of_eq hk) hsub
  · intro x y h2x h2y
    unfold prefKey
    rw [h2x, h2y]
    cases h1x : containsSub x "1.5" <;> cases hfx : containsSub x "flash" <;>
      cases h1y : containsSub y "1.5" <;> cases hfy : containsSub y "flash" <;>
      simp
  · intro x y h2 h1x h1y
    cases h2x : containsSub x "2.0" with
    | false =>
      have h2y : containsSub y "2.0" = false := by rw [← h2, h2x]
      unfold prefKey
      rw [h2x, h2y, h1x, h1y]
      cases hfx : containsSub x "flash" <;> cases hfy : containsSub y "flash" <;>
        simp
    | true =>
      have h2y : containsSub y "2.0" = true := by rw [← h2, h2x]
      unfold prefKey
      rw [h2x, h2y, h1x, h1y]
      cases hfx : containsSub x "flash" <;> cases hfy : containsSub y "flash" <;>
        simp
  · intro x y h2 h1 hfx hfy
    cases h2x : containsSub x "2.0" with
    | false =>
      have h2y : containsSub y "2.0" = false := by rw [← h2, h2x]
      cases h1x : containsSub x "1.5" with
      | false =>
        have h1y : containsSub y "1.5" = false := by rw [← h1, h1x]
        unfold prefKey
        rw [h2x, h2y, h1x, h1y, hfx, hfy]
        simp
      | true =>
        have h1y : containsSub y "1.5" = true := by rw [← h1, h1x]
        unfold prefKey
        rw [h2x, h2y, h1x, h1y, hfx, hfy]
        simp
    | true =>
      have h2y : containsSub y "2.0" = true := by rw [← h2, h2x]
      cases h1x : containsSub x "1.5" with
      | false =>
        have h1y : containsSub y "1.5" = false := by rw [← h1, h1x]
        unfold prefKey
        rw [h2x, h2y, h1x, h1y, hfx, hfy]
        simp
      | true =>
        have h1y : containsSub y "1.5" = true := by rw [← h1, h1x]
        unfold prefKey
        rw [h2x, h2y, h1x, h1y, hfx, hfy]
        simp

/-- Witness for C7 at the concrete discovery body `discBodyW`. -/
theorem c7_candidate_list_witness :
    candidateList .exn = fallbackModels ∧
    (∀ (s : Nat) (mso : Option (List DiscoveredModel)), s ≠ 200 →
      candidateList (.resp s mso) = fallbackModels) ∧
    candidateList (.resp 200 none) = fallbackModels ∧
    (∀ ms2 : List DiscoveredModel, extractNames ms2 = none →
      candidateList (.resp 200 (some ms2)) = fallbackModels) ∧
    (∀ ms2 : List DiscoveredModel, extractNames ms2 = some [] →
      candidateList (.resp 200 (some ms2)) = fallbackModels) ∧
    candidateList (.resp 200 (some discBodyW)) =
      prioritySort ["gemini-1.5-pro", "gemini-2.0-flash-exp"] ∧
    (prioritySort ["gemini-1.5-pro", "gemini-2.0-flash-exp"]).Perm
      ["gemini-1.5-pro", "gemini-2.0-flash-exp"] ∧
    (prioritySort ["gemini-1.5-pro", "gemini-2.0-flash-exp"]).Pairwise
      (fun x y => prefKey x ≤ prefKey y) ∧
    (∀ x y : String, prefKey x = prefKey y →
      List.Sublist [x, y] ["gemini-1.5-pro", "gemini-2.0-flash-exp"] →
      List.Sublist [x, y]
        (prioritySort ["gemini-1.5-pro", "gemini-2.0-flash-exp"])) ∧
    (∀ x y : String, containsSub x "2.0" = true →
      containsSub y "2.0" = false → prefKey x < prefKey y) ∧
    (∀ x y : String, containsSub x "2.0" = containsSub y "2.0" →
      containsSub x "1.5" = true → containsSub y "1.5" = false →
      prefKey x < prefKey y) ∧
    (∀ x y : String, containsSub x "2.0" = containsSub y "2.0" →
      containsSub x "1.5" = containsSub y "1.5" →
      containsSub x "flash" = true → containsSub y "flash" = false →
      prefKey x < prefKey y) :=
  c7_candidate_list discBodyW ["gemini-1.5-pro", "gemini-2.0-flash-exp"]
    (by decide) (by decide)

/-- The terminal-failure message is never the empty string. -/
theorem exhaustMsg_ne_empty (logs : List String) (k : String) :
    exhaustMsg logs k ≠ "" := by
  intro hEq
  have hlen := congrArg String.length hEq
  unfold exhaustMsg at hlen
  simp only [String.length_append, String.length_empty] at hlen
  have h33 : ("Error: All models failed. Debug: " : String).length = 33 := by
    decide
  rw [h33] at hlen
  omega

/-- C8: when every candidate of the list is exhausted without a success, the
endpoint's response is the terminal-failure message over the accumulated log,
which carries one entry (candidate id plus outcome code) per candidate in
candidate order; the message is never the empty string, so the terminal
failure is distinguishable from a successful empty-string answer; and on an
empty candidate list the cascade returns the distinguished no-answer result
with an empty log. -/
theorem c8_exhaustion_terminal_failure (apiKey : String) (hk : apiKey ≠ "")
    (req : ChatRequest) (retr : RetrievalOutcome) (disc : DiscoveryResponse)
    (gen : String → String → Nat → GenResponse)
    (h : (runCascade (assemblePrompt (contextTextOf retr req.message)
      req.message) (candidateList disc) gen).answer = none) :
    (chat_endpoint apiKey req retr disc gen).1 =
      ⟨exhaustMsg (runCascade (assemblePrompt (contextTextOf retr
        req.message) req.message) (candidateList disc) gen).logs apiKey⟩ ∧
    (runCascade (assemblePrompt (contextTextOf retr req.message)
      req.message) (candidateList disc) gen).logs.length =
      (candidateList disc).length ∧
    (∀ i (h1 : i < (runCascade (assemblePrompt (contextTextOf retr
        req.message) req.message) (candidateList disc) gen).logs.length)
      (h2 : i < (candidateList disc).length),
      ∃ code, (runCascade (assemblePrompt (contextTextOf retr req.message)
        req.message) (candidateList disc) gen).logs.get ⟨i, h1⟩ =
        (candidateList disc).get ⟨i, h2⟩ ++ ": " ++ code) ∧
    (∀ (logs : List String) (k : String), exhaustMsg logs k ≠ "") ∧
    (∀ (p2 : String) (gen2 : String → String → Nat → GenResponse),
      runCascade p2 [] gen2 = ⟨none, [], 0, 0, []⟩) ∧
    (∀ a : String, (⟨none, [], 0, 0, []⟩ : CascadeResult).answer ≠ some a) := by
  obtain ⟨hlen, hidx⟩ := runCascade_exhaust_log (assemblePrompt
    (contextTextOf retr req.message) req.message) (candidateList disc) gen h
  refine ⟨?_, hlen, hidx, exhaustMsg_ne_empty, fun p2 gen2 => rfl,
    fun a ha => by simp at ha⟩
  rw [chat_endpoint_exhaust apiKey hk req retr disc gen h]

/-- Witness for C8: concrete key and query, discovery failing, every
generation request failing with status 500. -/
theorem c8_exhaustion_terminal_failure_witness :
    (chat_endpoint "k" ⟨"q"⟩ .failed .exn (fun _ _ _ => .resp 500 none)).1 =
      ⟨exhaustMsg (runCascade (assemblePrompt (contextTextOf .failed "q")
        "q") (candidateList .exn) (fun _ _ _ => .resp 500 none)).logs "k"⟩ ∧
    (runCascade (assemblePrompt (contextTextOf .failed "q") "q")
      (candidateList .exn) (fun _ _ _ => .resp 500 none)).logs.length =
      (candidateList .exn).length ∧
    (∀ i (h1 : i < (runCascade (assemblePrompt (contextTextOf .failed "q")
        "q") (candidateList .exn) (fun _ _ _ => .resp 500 none)).logs.length)
      (h2 : i < (candidateList .exn).length),
      ∃ code, (runCascade (assemblePrompt (contextTextOf .failed "q") "q")
        (candidateList .exn) (fun _ _ _ => .resp 500 none)).logs.get
          ⟨i, h1⟩ = (candidateList .exn).get ⟨i, h2⟩ ++ ": " ++ code) ∧
    (∀ (logs : List String) (k : String), exhaustMsg logs k ≠ "") ∧
    (∀ (p2 : String) (gen2 : String → String → Nat → GenResponse),
      runCascade p2 [] gen2 = ⟨none, [], 0, 0, []⟩) ∧
    (∀ a : String, (⟨none, [], 0, 0, []⟩ : CascadeResult).answer ≠ some a) :=
  c8_exhaustion_terminal_failure "k" (by decide) ⟨"q"⟩ .failed .exn
    (fun _ _ _ => .resp 500 none) (by decide)

set_option maxHeartbeats 2000000 in
/-- C10 counterexample: two runs differing only in the credential ("abcd1"
vs "abcd2"), both exhausting the cascade, produce the SAME user-visible
failure message, because the keys agree on their first four characters. -/
theorem c10_counterexample :
    ("abcd1" : String) ≠ "abcd2" ∧
    (runCascade (assemblePrompt (contextTextOf .failed "q") "q")
      (candidateList .exn) gen500).answer = none ∧
    (chat_endpoint "abcd1" ⟨"q"⟩ .failed .exn gen500).1 =
      (chat_endpoint "abcd2" ⟨"q"⟩ .failed .exn gen500).1 :=
  ⟨by decide, by decide, by decide⟩

set_option maxHeartbeats 1000000 in
/-- The first four key characters are recoverable from the terminal-failure
message: equal messages over the same log imply equal four-character key
prefixes. -/
theorem exhaustMsg_key_inj (logs : List String) (k1 k2 : String)
    (hEq : exhaustMsg logs k1 = exhaustMsg logs k2) :
    k1.take 4 = k2.take 4 := by
  unfold exhaustMsg at hEq
  have hd := congrArg String.data hEq
  simp only [String.data_append, List.append_assoc] at hd
  have hd2 := List.append_cancel_left hd
  have hd3 := List.append_cancel_left hd2
  have hd4 := List.append_cancel_left hd3
  have hd5 := List.append_cancel_right hd4
  exact String.ext hd5

/-- C10 (amended): on total cascade exhaustion the user-visible response
string includes the first four characters of the configured API key, and two
exhausted runs whose credentials differ in their first four characters
produce different user-visible failure messages — the credential is
partially disclosed to the end user. -/
theorem c10_key_disclosure (apiKey : String) (hk : apiKey ≠ "")
    (req : ChatRequest) (retr : RetrievalOutcome) (disc : DiscoveryResponse)
    (gen : String → String → Nat → GenResponse)
    (h : (runCascade (assemblePrompt (contextTextOf retr req.message)
      req.message) (candidateList disc) gen).answer = none) :
    (∃ pre post, (chat_endpoint apiKey req retr disc gen).1.response =
      pre ++ apiKey.take 4 ++ post) ∧
    (∀ k2 : String, k2 ≠ "" → apiKey.take 4 ≠ k2.take 4 →
      (chat_endpoint apiKey req retr disc gen).1.response ≠
        (chat_endpoint k2 req retr disc gen).1.response) := by
  constructor
  · rw [chat_endpoint_exhaust apiKey hk req retr disc gen h]
    exact ⟨"Error: All models failed. Debug: " ++ String.intercalate ", "
      (runCascade (assemblePrompt (contextTextOf retr req.message)
        req.message) (candidateList disc) gen).logs ++ ". Key: ", "...", rfl⟩
  · intro k2 hk2 hne hEqResp
    rw [chat_endpoint_exhaust apiKey hk req retr disc gen h,
      chat_endpoint_exhaust k2 hk2 req retr disc gen h] at hEqResp
    exact hne (exhaustMsg_key_inj (runCascade (assemblePrompt (contextTextOf
      retr req.message) req.message) (candidateList disc) gen).logs apiKey k2
      hEqResp)

/-- Witness for the amended C10 at a concrete exhausted run. -/
theorem c10_key_disclosure_witness :
    (∃ pre post, (chat_endpoint "abcd1" ⟨"q"⟩ .failed .exn gen500).1.response =
      pre ++ ("abcd1" : String).take 4 ++ post) ∧
    (∀ k2 : String, k2 ≠ "" → ("abcd1" : String).take 4 ≠ k2.take 4 →
      (chat_endpoint "abcd1" ⟨"q"⟩ .failed .exn gen500).1.response ≠
        (chat_endpoint k2 ⟨"q"⟩ .failed .exn gen500).1.response) :=
  c10_key_disclosure "abcd1" (by decide) ⟨"q"⟩ .failed .exn gen500
    (by decide)
